import Mathlib

/-!
Shallow embedding of the process-lifecycle core of python-elasticsearch-runner
(file src/elasticsearch_runner/runner.py), together with theorems settling the
frozen claims about its natural-language specification.

The embedding models the controller state (the ElasticsearchRunner object),
its in-memory ServerState tuple, and the lifecycle operations run, stop,
is_running and wait_for_green as pure state-transition functions.  All
interaction with the outside world (the filesystem, the launched server
process, the wall clock and the HTTP health endpoint) is mediated through an
explicit environment record of oracles, and the side effects an operation
performs are returned as an explicit list of Effect values in the order the
source code performs them.  Operations that can raise a Python exception are
embedded as Except-valued functions.

The module elasticsearch_runner.configuration is imported by runner.py but its
source is not part of the repository snapshot; the two values the lifecycle
core needs from it (generate_cluster_name and generate_config) are modelled
from the specification and marked as such in their doc comments.
-/

/-- Python str.strip whitespace class: space, tab, newline, carriage return,
vertical tab and form feed. -/
def pySpace (c : Char) : Bool :=
  c = ' ' || c = '\t' || c = '\n' || c = '\r' || c = '\x0b' || c = '\x0c'

/-- Python str.strip on a character list: drop whitespace from both ends. -/
def pyStripChars (l : List Char) : List Char :=
  ((l.dropWhile pySpace).reverse.dropWhile pySpace).reverse

/-- Numeric value of a decimal digit character. -/
def digitVal (c : Char) : Nat := c.toNat - 48

/-- Value of a most-significant-first decimal digit list. -/
def decValue (ds : List Char) : Nat := ds.foldl (fun a c => 10 * a + digitVal c) 0

/-- Test whether the first list is an initial segment of the second. -/
def listLead : List Char → List Char → Bool
  | [], _ => true
  | _ :: _, [] => false
  | p :: ps, c :: cs => p = c && listLead ps cs

/-- Index of the first occurrence of a pattern as a contiguous sublist,
mirroring how re.search scans the subject left to right. -/
def findSubAux (pat : List Char) : List Char → Option Nat
  | [] => if pat.isEmpty then some 0 else none
  | c :: rest =>
    if listLead pat (c :: rest) then some 0
    else
      match findSubAux pat rest with
      | some i => some (i + 1)
      | none => none

/-- Substring containment test. -/
def containsSub (pat l : List Char) : Bool := (findSubAux pat l).isSome

/-- Embedding of searching a line for the regular expression pid[(digits)]
used at runner.py line 176: scan left to right for the literal text pid[
followed by at least one digit and a closing bracket, and return the value of
the maximal digit run. -/
def pidSearch : List Char → Option Nat
  | [] => none
  | c :: rest =>
    let here :=
      if listLead ['p', 'i', 'd', '['] (c :: rest) then
        let after := rest.drop 3
        let ds := after.takeWhile Char.isDigit
        if ds.isEmpty then none
        else if (after.drop ds.length).headD ' ' = ']' then some (decValue ds)
        else none
      else none
    match here with
    | some v => some v
    | none => pidSearch rest

/-- Value of the digit run following the last colon that is directly followed
by a digit; this is what the greedy regular expression
http.*publish_address.*:(digits) captures once the mandatory markers have been
located. -/
def lastColonPort : List Char → Option Nat
  | [] => none
  | c :: rest =>
    match lastColonPort rest with
    | some v => some v
    | none =>
      if c = ':' then
        let ds := rest.takeWhile Char.isDigit
        if ds.isEmpty then none else some (decValue ds)
      else none

/-- ASCII lower-casing of one character, as str.lower acts on the log lines
relevant here. -/
def asciiLower (c : Char) : Char :=
  if 65 ≤ c.toNat && c.toNat ≤ 90 then Char.ofNat (c.toNat + 32) else c

/-- Embedding of searching a lower-cased line for the regular expression
http.*publish_address.*:(digits) used at runner.py line 180: the line must
contain http, then publish_address after it, and the captured group is the
digit run after the last qualifying colon beyond the publish_address marker. -/
def httpPortSearch (l : List Char) : Option Nat :=
  match findSubAux ['h', 't', 't', 'p'] l with
  | none => none
  | some i =>
    let afterHttp := l.drop (i + 4)
    match findSubAux "publish_address".toList afterHttp with
    | none => none
    | some j => lastColonPort (afterHttp.drop (j + 15))

/-- One iteration bound of the scanning loop of parse_es_log_header
(runner.py lines 169-188).  The log stream is a list of lines; reading past
the end yields the empty string as readline does at end of file.  The sleep on
a blank line has no modelled effect.  On each line the pid marker, then the
port marker on the lower-cased line, then the started marker are tried, in the
order of the source. -/
def parseStep (lines : List String) (pos : Nat) (serverPid : Option Nat) (esPort : Nat) :
    Nat → Option Nat × Nat
  | 0 => (serverPid, esPort)
  | fuel + 1 =>
    let line := pyStripChars (lines.getD pos "").toList
    let serverPid1 :=
      match pidSearch line with
      | some p => some p
      | none => serverPid
    let esPort1 :=
      match httpPortSearch (line.map asciiLower) with
      | some p => p
      | none => esPort
    if containsSub "started".toList line then (serverPid1, esPort1)
    else parseStep lines (pos + 1) serverPid1 esPort1 fuel

/-- Embedding of parse_es_log_header (runner.py lines 151-195): scan up to
limit lines for the pid and publish_address markers, returning at the first
line containing started; the pid defaults to absent and the port to 9200. -/
def parse_es_log_header (lines : List String) (limit : Nat) : Option Nat × Nat :=
  parseStep lines 0 none 9200 limit

/-- Embedding of the Python int builtin applied to a string, as used on pid
files and version components: optional surrounding whitespace, an optional
sign, then at least one decimal digit. -/
def pyIntChars (l : List Char) : Option Int :=
  match pyStripChars l with
  | [] => none
  | c :: rest =>
    if c = '-' then
      if !rest.isEmpty && rest.all Char.isDigit then some (-(decValue rest : Int)) else none
    else if c = '+' then
      if !rest.isEmpty && rest.all Char.isDigit then some ((decValue rest : Int)) else none
    else
      if (c :: rest).all Char.isDigit then some ((decValue (c :: rest) : Int)) else none

/-- The first line of a file as readline returns it, including the trailing
newline when present. -/
def firstLineChars : List Char → List Char
  | [] => []
  | c :: rest => if c = '\n' then [c] else c :: firstLineChars rest

/-- Python str.split on a separator character. -/
def splitOnChar (sep : Char) : List Char → List (List Char)
  | [] => [[]]
  | c :: rest =>
    let r := splitOnChar sep rest
    if c = sep then [] :: r
    else
      match r with
      | h :: t => (c :: h) :: t
      | [] => [[c]]

/-- Embedding of os.path.join on POSIX for two components. -/
def osPathJoin (a b : String) : String :=
  if b.toList.headD ' ' = '/' then b
  else if a = "" then b
  else if a.toList.getLast? = some '/' then a ++ b
  else a ++ "/" ++ b

/-- Oracles for everything outside the controller process: the cluster-name
generator, the current working directory, the filesystem before and after the
settling sleep that follows a launch, liveness of operating-system processes
before an operation and after the termination wait inside stop, existence
checks, and the outcome of successive cluster-health polls.  A poll outcome
of none models the HTTP request or the JSON decode raising (for example a
connection error while the endpoint is unreachable); some s models a
response whose decoded status field is s. -/
structure Env where
  genName : String
  cwd : String
  readFile : String → Option String
  readFileAfterSettle : String → Option String
  processAlive : Int → Bool
  processAliveAfterStop : Int → Bool
  fileExists : String → Bool
  health : Nat → Option String

/-- Embedding of fetch_pid_from_pid_file (runner.py lines 204-209),
parameterised by the filesystem-read oracle in force at the call site: open
the file, read its first line and convert it with int, returning None on any
failure. -/
def fetch_pid_from_pid_file (read : String → Option String) (pid_path : String) : Option Int :=
  match read pid_path with
  | none => none
  | some contents => pyIntChars (firstLineChars contents.toList)

/-- Python truthiness of an optional integer: None and 0 are falsy. -/
def pyTruthy (o : Option Int) : Bool :=
  match o with
  | none => false
  | some p => p != 0

/-- The ElasticsearchState namedtuple (runner.py lines 199-201). -/
structure ElasticsearchState where
  server_pid : Option Int
  wrapper_pid : Option Int
  port : Option Nat
  config_fn : String
  deriving DecidableEq

/-- Path block of the rendered configuration document. -/
structure PathCfg where
  data : Option String
  log : Option String
  deriving DecidableEq

/-- Rendered configuration document. -/
structure ConfigDoc where
  cluster_name : String
  cors_enabled : Bool
  path : Option PathCfg
  deriving DecidableEq

/-- Modelled from the spec: generate_config from the missing configuration
module renders a document with the cluster name, a fixed CORS-enabled HTTP
policy block, and path.data and path.log entries for the supplied absolute
data and log paths (spec sections 4.2 step 3 and 6). -/
def generate_config (name data_path log_path : String) : ConfigDoc :=
  { cluster_name := name
    cors_enabled := true
    path := some { data := some data_path, log := some log_path } }

/-- The controller object: construction-time configuration plus the mutable
es_state and es_config fields. -/
structure ElasticsearchRunner where
  install_path : String
  version : String
  es_state : Option ElasticsearchState
  es_config : Option ConfigDoc
  deriving DecidableEq

/-- Observable side effects of a lifecycle operation, listed in the order the
source performs them. -/
inductive Effect where
  | warn (msg : String)
  | logError (msg : String)
  | mkdir (path : String)
  | writeFile (path : String)
  | copyResource (src dst : String)
  | truncateFile (path : String)
  | launch (args : List String)
  | settleSleep
  | terminate (pid : Int)
  | waitProcess (pid : Int)
  | rmtree (path : String)
  | removeFile (path : String)
  | httpGet (url : String)
  deriving DecidableEq

/-- Modelled from the spec: generate_cluster_name from the missing
configuration module produces a generated identifier for the run (spec
section 3, ClusterIdentity; section 9 flags that its determinism across calls
is an open question).  It is modelled as an oracle value that is identical at
every call site within one scenario, the reading most favourable to
cross-call consistency. -/
def generate_cluster_name (env : Env) : String := env.genName

/-- Embedding of the static method ElasticsearchRunner.__get_pid_file
(runner.py lines 395-397): the .pid marker inside the given cluster path. -/
def ElasticsearchRunner.get_pid_file (cluster_path : String) : String :=
  osPathJoin cluster_path ".pid"

/-- The version-qualified installation folder name (runner.py line 247). -/
def ElasticsearchRunner.version_folder (r : ElasticsearchRunner) : String :=
  "elasticsearch-" ++ r.version

/-- Embedding of ElasticsearchRunner._es_wrapper_call for the POSIX branch
(runner.py lines 413-419). -/
def ElasticsearchRunner.es_wrapper_call (r : ElasticsearchRunner) : List String :=
  ["/bin/sh",
   osPathJoin (osPathJoin (osPathJoin r.install_path r.version_folder) "bin") "elasticsearch"]

/-- Embedding of ElasticsearchRunner.__pid_from_file (runner.py lines
490-497): re-derive a cluster name, use it directly as the cluster path, and
read the pid file there.  Note that unlike run, this does not join the
install path or the version prefix. -/
def ElasticsearchRunner.pid_from_file (env : Env) : Option Int :=
  fetch_pid_from_pid_file env.readFile
    (ElasticsearchRunner.get_pid_file (generate_cluster_name env))

/-- Embedding of ElasticsearchRunner.__es_pid (runner.py lines 483-488): the
in-memory server pid when the state tuple is present and the pid truthy,
otherwise the best-effort pid-file lookup. -/
def ElasticsearchRunner.es_pid (env : Env) (r : ElasticsearchRunner) : Option Int :=
  match r.es_state with
  | some st =>
    match st.server_pid with
    | some p => if p = 0 then ElasticsearchRunner.pid_from_file env else some p
    | none => ElasticsearchRunner.pid_from_file env
  | none => ElasticsearchRunner.pid_from_file env

/-- Embedding of ElasticsearchRunner.is_running (runner.py lines 473-481). -/
def ElasticsearchRunner.is_running (env : Env) (r : ElasticsearchRunner) : Bool :=
  match ElasticsearchRunner.es_pid env r with
  | some p => env.processAlive p
  | none => false

/-- The per-run cluster working directory computed at runner.py lines
322-325. -/
def ElasticsearchRunner.run_cluster_path (env : Env) (r : ElasticsearchRunner) : String :=
  osPathJoin r.install_path (r.version ++ "-" ++ generate_cluster_name env)

/-- The data subdirectory of the run (runner.py line 327). -/
def ElasticsearchRunner.run_data_dir (env : Env) (r : ElasticsearchRunner) : String :=
  osPathJoin (ElasticsearchRunner.run_cluster_path env r) "data"

/-- The config subdirectory of the run (runner.py line 328). -/
def ElasticsearchRunner.run_config_dir (env : Env) (r : ElasticsearchRunner) : String :=
  osPathJoin (ElasticsearchRunner.run_cluster_path env r) "config"

/-- The log subdirectory of the run (runner.py line 329). -/
def ElasticsearchRunner.run_log_dir (env : Env) (r : ElasticsearchRunner) : String :=
  osPathJoin (ElasticsearchRunner.run_cluster_path env r) "log"

/-- The pid-file path run computes and passes to the server (runner.py line
330 and 381). -/
def ElasticsearchRunner.run_pid_path (env : Env) (r : ElasticsearchRunner) : String :=
  ElasticsearchRunner.get_pid_file (ElasticsearchRunner.run_cluster_path env r)

/-- The rendered configuration file path (runner.py line 337). -/
def ElasticsearchRunner.run_config_fn (env : Env) (r : ElasticsearchRunner) : String :=
  osPathJoin (ElasticsearchRunner.run_config_dir env r) "elasticsearch.yml"

/-- The per-run log file path (runner.py line 362). -/
def ElasticsearchRunner.run_log_fn (env : Env) (r : ElasticsearchRunner) : String :=
  osPathJoin (ElasticsearchRunner.run_log_dir env r) (generate_cluster_name env ++ ".log")

/-- Embedding of pathlib absolute-path resolution used for the data and log
paths handed to the config renderer (runner.py lines 334-335). -/
def absolutize (env : Env) (p : String) : String :=
  if p.toList.headD ' ' = '/' then p else osPathJoin env.cwd p

/-- The rendered per-run configuration document (runner.py lines 332-336). -/
def ElasticsearchRunner.run_config (env : Env) (r : ElasticsearchRunner) : ConfigDoc :=
  generate_config (generate_cluster_name env)
    (absolutize env (ElasticsearchRunner.run_data_dir env r))
    (absolutize env (ElasticsearchRunner.run_log_dir env r))

/-- Filesystem side effects common to both branches of a fresh run: the four
directory creations (runner.py lines 340-343), the config serialization
(lines 347-348) and the three resource copies (lines 350-360). -/
def ElasticsearchRunner.run_setup_effects (env : Env) (r : ElasticsearchRunner) : List Effect :=
  [Effect.mkdir (ElasticsearchRunner.run_cluster_path env r),
   Effect.mkdir (ElasticsearchRunner.run_log_dir env r),
   Effect.mkdir (ElasticsearchRunner.run_data_dir env r),
   Effect.mkdir (ElasticsearchRunner.run_config_dir env r),
   Effect.writeFile (ElasticsearchRunner.run_config_fn env r),
   Effect.copyResource "embedded_logging.yml"
     (osPathJoin (ElasticsearchRunner.run_config_dir env r) "logging.yml"),
   Effect.copyResource "jvm.options"
     (osPathJoin (ElasticsearchRunner.run_config_dir env r) "jvm.options"),
   Effect.copyResource "log4j.properties"
     (osPathJoin (ElasticsearchRunner.run_config_dir env r) "log4j2.properties")]

/-- The controller after run records its state (runner.py lines 387-392):
es_state is set unconditionally to a tuple holding whatever pid was read, no
wrapper pid, the fixed port 9200 and the rendered config path. -/
def ElasticsearchRunner.run_result_state (env : Env) (r : ElasticsearchRunner)
    (pid : Option Int) : ElasticsearchRunner :=
  { r with
    es_state := some
      { server_pid := pid
        wrapper_pid := none
        port := some 9200
        config_fn := ElasticsearchRunner.run_config_fn env r }
    es_config := some (ElasticsearchRunner.run_config env r) }

/-- The launch command Popen receives (runner.py lines 370-382): the wrapper
call, legacy config-path flags for major versions before 5, and the pid-file
flag. -/
def ElasticsearchRunner.run_call (env : Env) (r : ElasticsearchRunner) (major : Int) :
    List String :=
  ElasticsearchRunner.es_wrapper_call r ++
    (if major < 5 then
      ["-Des.path.conf=" ++ ElasticsearchRunner.run_config_dir env r,
       "-Des.path.logs=" ++ ElasticsearchRunner.run_log_dir env r]
    else []) ++
    ["-p", ElasticsearchRunner.run_pid_path env r]

/-- Embedding of the part of ElasticsearchRunner.run past the already-running
check (runner.py lines 321-393): derive the ClusterIdentity, render and write
the configuration, copy the resources, then either find a truthy pid in the
pid file (warm recovery, no launch) or truncate the log file, parse the major
version (a malformed version string raises ValueError), launch the server
detached, sleep the settling interval and re-read the pid file.  In both
cases es_state is then set unconditionally. -/
def ElasticsearchRunner.runFresh (env : Env) (r : ElasticsearchRunner) :
    Except String (ElasticsearchRunner × List Effect) :=
  let warmPid := fetch_pid_from_pid_file env.readFile (ElasticsearchRunner.run_pid_path env r)
  if pyTruthy warmPid then
    Except.ok (ElasticsearchRunner.run_result_state env r warmPid,
      ElasticsearchRunner.run_setup_effects env r)
  else
    match splitOnChar '.' r.version.toList with
    | [ma, _, _] =>
      match pyIntChars ma with
      | some major =>
        Except.ok
          (ElasticsearchRunner.run_result_state env r
            (fetch_pid_from_pid_file env.readFileAfterSettle
              (ElasticsearchRunner.run_pid_path env r)),
           ElasticsearchRunner.run_setup_effects env r ++
             [Effect.truncateFile (ElasticsearchRunner.run_log_fn env r),
              Effect.launch (ElasticsearchRunner.run_call env r major),
              Effect.settleSleep])
      | none => Except.error "ValueError: invalid literal for int"
    | _ => Except.error "ValueError: not enough values to unpack"

/-- Embedding of ElasticsearchRunner.run (runner.py lines 310-393): when the
controller already considers itself running, warn and return the same
instance untouched; otherwise perform a fresh run. -/
def ElasticsearchRunner.run (env : Env) (r : ElasticsearchRunner) :
    Except String (ElasticsearchRunner × List Effect) :=
  if ElasticsearchRunner.is_running env r then
    Except.ok (r, [Effect.warn "Elasticsearch already running ..."])
  else ElasticsearchRunner.runFresh env r

/-- Embedding of ElasticsearchRunner.stop (runner.py lines 423-471).  When
running: terminate the process, wait for it, warn if it survives, optionally
remove the transient log and data trees and the rendered config file, then
clear the in-memory state.  Accessing the path block of an absent es_config
or the config_fn of an absent es_state raises, as the attribute and
containment operators do on None in Python.  When not running: warn and
clear the in-memory state. -/
def ElasticsearchRunner.stop (env : Env) (delete_transient : Bool) (r : ElasticsearchRunner) :
    Except String (ElasticsearchRunner × List Effect) :=
  if ElasticsearchRunner.is_running env r then
    match ElasticsearchRunner.es_pid env r with
    | none => Except.error "TypeError: Process pid is None"
    | some pid =>
      let killEffs := [Effect.terminate pid, Effect.waitProcess pid] ++
        (if env.processAliveAfterStop pid then
          [Effect.warn "Failed to stop Elasticsearch server process ..."] else [])
      if delete_transient then
        match r.es_config with
        | none => Except.error "TypeError: argument of type NoneType is not iterable"
        | some cfg =>
          let pathEffs :=
            match cfg.path with
            | some pc =>
              (match pc.log with
               | some lp => [Effect.rmtree lp]
               | none => []) ++
              (match pc.data with
               | some dp => [Effect.rmtree dp]
               | none => [])
            | none => []
          match r.es_state with
          | none => Except.error "AttributeError: NoneType has no attribute config_fn"
          | some st =>
            let cfgEffs :=
              if env.fileExists st.config_fn then [Effect.removeFile st.config_fn] else []
            Except.ok ({ r with es_state := none, es_config := none },
              killEffs ++ pathEffs ++ cfgEffs)
      else
        Except.ok ({ r with es_state := none, es_config := none }, killEffs)
  else
    Except.ok ({ r with es_state := none, es_config := none },
      [Effect.warn "Elasticsearch is not running ..."])

/-- The polling loop of wait_for_green (runner.py lines 516-534).  The i-th
poll is the i-th requests.get together with the json.loads of its body; both
sit outside any exception handler, so a poll outcome of none propagates as an
exception.  The clock oracle is modelled as advancing one tick per reading,
so with a timeout of t ticks the reading taken in iteration i exceeds the
deadline exactly when i is at least t.  The index i counts polls already
issued; fuel is an upper bound on remaining iterations and is chosen large
enough by the wrapper that it is never exhausted. -/
def ElasticsearchRunner.wfgLoop (env : Env) (url : String) (timeoutT : Nat)
    (r : ElasticsearchRunner) :
    Nat → Nat → List Effect → Except String (ElasticsearchRunner × List Effect)
  | _, 0, acc => Except.ok (r, acc)
  | i, fuel + 1, acc =>
    match env.health i with
    | none => Except.error "requests.exceptions.ConnectionError"
    | some s =>
      if s = "green" then Except.ok (r, acc)
      else if timeoutT ≤ i then
        Except.ok (r, acc ++ [Effect.logError "Elasticsearch cluster failed to turn green ..."])
      else
        ElasticsearchRunner.wfgLoop env url timeoutT r (i + 1) fuel
          (acc ++ [Effect.httpGet url])

/-- Embedding of ElasticsearchRunner.wait_for_green (runner.py lines
499-536): warn and return immediately when es_state is absent or holds no
port; otherwise poll the cluster-health endpoint until the status is green or
the deadline passes, logging an error on timeout.  The code performs the
requests.get and json.loads calls with no exception handling, so a failing
or undecodable poll raises out of the function; a completed call always
returns the instance unchanged. -/
def ElasticsearchRunner.wait_for_green (env : Env) (timeoutT : Nat) (r : ElasticsearchRunner) :
    Except String (ElasticsearchRunner × List Effect) :=
  match r.es_state with
  | none => Except.ok (r, [Effect.warn "Elasticsearch runner is not started ..."])
  | some st =>
    match st.port with
    | none => Except.ok (r, [Effect.warn "Elasticsearch runner not properly started ..."])
    | some p =>
      let url := "http://localhost:" ++ toString p ++ "/_cluster/health"
      ElasticsearchRunner.wfgLoop env url timeoutT r 0 (timeoutT + 2) [Effect.httpGet url]

/-- Test for a launch effect. -/
def isLaunch (e : Effect) : Bool :=
  match e with
  | Effect.launch _ => true
  | _ => false

/-- Number of subprocess launches an effect list performs. -/
def launchCount (effs : List Effect) : Nat := (effs.filter isLaunch).length

/-- Paths of log-file truncations in an effect list. -/
def truncatedPaths (effs : List Effect) : List String :=
  effs.filterMap (fun e =>
    match e with
    | Effect.truncateFile p => some p
    | _ => none)

/-- Paths removed from disk by an effect list, recursively or as single
files, in order. -/
def diskRemovals (effs : List Effect) : List String :=
  effs.filterMap (fun e =>
    match e with
    | Effect.rmtree p => some p
    | Effect.removeFile p => some p
    | _ => none)

/-- Paths created or written on disk by an effect list. -/
def diskWrites (effs : List Effect) : List String :=
  effs.filterMap (fun e =>
    match e with
    | Effect.mkdir p => some p
    | Effect.writeFile p => some p
    | Effect.copyResource _ p => some p
    | Effect.truncateFile p => some p
    | _ => none)

/-- Well-formedness of a version string for run: exactly three dot-separated
components with an integral major component, as the unpacking and int
conversion at runner.py line 372 require. -/
def versionOk (v : String) : Bool :=
  match splitOnChar '.' v.toList with
  | [ma, _, _] => (pyIntChars ma).isSome
  | _ => false

/-- Scenario: nothing on disk, no process alive, cluster name ba, controller
constructed with install path /opt/es and version 6.4.3. -/
def envNoPid : Env :=
  { genName := "ba"
    cwd := "/cwd"
    readFile := fun _ => none
    readFileAfterSettle := fun _ => none
    processAlive := fun _ => false
    processAliveAfterStop := fun _ => false
    fileExists := fun _ => false
    health := fun _ => some "red" }

/-- A freshly constructed controller that has never run. -/
def runnerFresh : ElasticsearchRunner :=
  { install_path := "/opt/es", version := "6.4.3", es_state := none, es_config := none }

/-- Scenario: a prior run left pid 123 in the pid file at the path run
derives, and nothing else. -/
def envWarm : Env :=
  { envNoPid with
    readFile := fun p => if p = "/opt/es/6.4.3-ba/.pid" then some "123" else none }

/-- Scenario: the launched server writes pid 123 to its pid file within the
settling window and the process stays alive. -/
def envLaunchOk : Env :=
  { envNoPid with
    readFileAfterSettle := fun _ => some "123"
    processAlive := fun p => p == 123 }

/-- The ServerState of a controller whose run discovered pid 123. -/
def stRunning : ElasticsearchState :=
  { server_pid := some 123
    wrapper_pid := none
    port := some 9200
    config_fn := "/opt/es/6.4.3-ba/config/elasticsearch.yml" }

/-- A controller that considers itself running with pid 123. -/
def runnerRunning : ElasticsearchRunner :=
  { install_path := "/opt/es"
    version := "6.4.3"
    es_state := some stRunning
    es_config := some (generate_config "ba" "/opt/es/6.4.3-ba/data" "/opt/es/6.4.3-ba/log") }

/-- Scenario: process 123 is alive, terminates cleanly when stopped, the
rendered config file exists on disk, and the cluster never reports green. -/
def envAlive : Env :=
  { envNoPid with
    processAlive := fun p => p == 123
    fileExists := fun _ => true }

/-- The synthetic log stream of the claim about the log scanner: a pid
marker, a publish_address line without an http marker, and a started line. -/
def c5lines : List String :=
  ["pid[4321]", "publish_address 127.0.0.1:9301", "... started ..."]

/-- The same stream with the http marker present on the publish_address
line, as real server logs have it. -/
def c5linesHttp : List String :=
  ["pid[4321]", "[http] publish_address 127.0.0.1:9301", "... started ..."]

/-- Scenario: a pid file holding 4321 and a newline at a fixed path. -/
def envPidFile : Env :=
  { envNoPid with
    readFile := fun p => if p = "/var/run/es.pid" then some "4321\n" else none }

/-- Scenario: the cluster-health endpoint is unreachable, so every poll
raises a connection error. -/
def envDown : Env :=
  { envNoPid with health := fun _ => none }

/-- Reading a list of only blank lines at any index yields the empty
string. -/
theorem getD_of_all_blank :
    ∀ (lines : List String), (∀ l ∈ lines, l = "") → ∀ i : Nat, lines.getD i "" = ""
  | [], _, i => by cases i <;> rfl
  | l :: ls, hb, 0 => hb l (List.mem_cons_self l ls)
  | _ :: ls, hb, i + 1 =>
    getD_of_all_blank ls (fun x hx => hb x (List.mem_cons_of_mem _ hx)) i

/-- On a stream of blank lines the scanning loop changes nothing and stops at
its fuel bound. -/
theorem parseStep_all_blank (lines : List String) (hb : ∀ l ∈ lines, l = "") :
    ∀ (fuel pos : Nat) (sp : Option Nat) (port : Nat),
      parseStep lines pos sp port fuel = (sp, port) := by
  intro fuel
  induction fuel with
  | zero => intro pos sp port; rfl
  | succ f ih =>
    intro pos sp port
    have hline : lines.getD pos "" = "" := getD_of_all_blank lines hb pos
    simp only [parseStep, hline]
    exact ih (pos + 1) sp port

/-- Run on a controller that considers itself running is a warning-only
no-op. -/
theorem run_of_running (env : Env) (r : ElasticsearchRunner)
    (h : ElasticsearchRunner.is_running env r = true) :
    ElasticsearchRunner.run env r =
      Except.ok (r, [Effect.warn "Elasticsearch already running ..."]) := by
  simp [ElasticsearchRunner.run, h]

/-- Run on a controller that does not consider itself running performs a
fresh run. -/
theorem run_of_not_running (env : Env) (r : ElasticsearchRunner)
    (h : ElasticsearchRunner.is_running env r = false) :
    ElasticsearchRunner.run env r = ElasticsearchRunner.runFresh env r := by
  simp [ElasticsearchRunner.run, h]

/-- Shape of a fresh run when the pid file already holds a truthy pid: warm
recovery, setup effects only, no launch and no log truncation. -/
theorem runFresh_warm (env : Env) (r : ElasticsearchRunner)
    (h : pyTruthy (fetch_pid_from_pid_file env.readFile
      (ElasticsearchRunner.run_pid_path env r)) = true) :
    ElasticsearchRunner.runFresh env r =
      Except.ok (ElasticsearchRunner.run_result_state env r
          (fetch_pid_from_pid_file env.readFile (ElasticsearchRunner.run_pid_path env r)),
        ElasticsearchRunner.run_setup_effects env r) := by
  simp [ElasticsearchRunner.runFresh, h]

/-- Shape of a fresh run when no truthy pid is found and the version string
is well formed: cold start with log truncation, one launch and the settling
sleep. -/
theorem runFresh_cold (env : Env) (r : ElasticsearchRunner)
    (hcold : pyTruthy (fetch_pid_from_pid_file env.readFile
      (ElasticsearchRunner.run_pid_path env r)) = false)
    (hv : versionOk r.version = true) :
    ∃ major : Int,
      ElasticsearchRunner.runFresh env r =
        Except.ok (ElasticsearchRunner.run_result_state env r
            (fetch_pid_from_pid_file env.readFileAfterSettle
              (ElasticsearchRunner.run_pid_path env r)),
          ElasticsearchRunner.run_setup_effects env r ++
            [Effect.truncateFile (ElasticsearchRunner.run_log_fn env r),
             Effect.launch (ElasticsearchRunner.run_call env r major),
             Effect.settleSleep]) := by
  unfold versionOk at hv
  split at hv
  case h_1 ma b c heq =>
    rcases hm : pyIntChars ma with _ | major
    · rw [hm] at hv; simp at hv
    · refine ⟨major, ?_⟩
      have heq2 : splitOnChar '.' r.version.data = [ma, b, c] := heq
      simp [ElasticsearchRunner.runFresh, hcold, heq2, hm]
  case h_2 => simp at hv

/-- The cold-start effect list performs exactly one launch. -/
theorem launchCount_cold_effects (env : Env) (r : ElasticsearchRunner) (lf : String)
    (args : List String) :
    launchCount (ElasticsearchRunner.run_setup_effects env r ++
      [Effect.truncateFile lf, Effect.launch args, Effect.settleSleep]) = 1 := by
  simp [launchCount, ElasticsearchRunner.run_setup_effects, isLaunch]

/-- Every successful stop clears the in-memory es_state and es_config. -/
theorem stop_clears (env : Env) (dt : Bool) (s r2 : ElasticsearchRunner) (e2 : List Effect)
    (h : ElasticsearchRunner.stop env dt s = Except.ok (r2, e2)) :
    r2.es_state = none ∧ r2.es_config = none := by
  rcases hr : ElasticsearchRunner.is_running env s with _ | _
  · simp only [ElasticsearchRunner.stop, hr] at h
    simp only [Bool.false_eq_true, if_false, Except.ok.injEq, Prod.mk.injEq] at h
    obtain ⟨h1, -⟩ := h
    subst h1
    exact ⟨rfl, rfl⟩
  · rcases hp : ElasticsearchRunner.es_pid env s with _ | pid
    · rw [ElasticsearchRunner.is_running, hp] at hr
      simp at hr
    · cases dt
      case false =>
        simp [ElasticsearchRunner.stop, hr, hp] at h
        obtain ⟨h1, -⟩ := h
        subst h1
        exact ⟨rfl, rfl⟩
      case true =>
        rcases hc : s.es_config with _ | cfg
        · simp [ElasticsearchRunner.stop, hr, hp, hc] at h
        · rcases hs2 : s.es_state with _ | st
          · simp [ElasticsearchRunner.stop, hr, hp, hc, hs2] at h
          · simp [ElasticsearchRunner.stop, hr, hp, hc, hs2] at h
            obtain ⟨h1, -⟩ := h
            subst h1
            exact ⟨rfl, rfl⟩

/-- A health-poll loop call that completes without an exception returns the
controller state unchanged. -/
theorem wfgLoop_ok_fst (env : Env) (url : String) (t : Nat) (r : ElasticsearchRunner) :
    ∀ (fuel i : Nat) (acc : List Effect) (r1 : ElasticsearchRunner) (effs : List Effect),
      ElasticsearchRunner.wfgLoop env url t r i fuel acc = Except.ok (r1, effs) → r1 = r := by
  intro fuel
  induction fuel with
  | zero =>
    intro i acc r1 effs h
    simp only [ElasticsearchRunner.wfgLoop, Except.ok.injEq, Prod.mk.injEq] at h
    exact h.1.symm
  | succ f ih =>
    intro i acc r1 effs h
    simp only [ElasticsearchRunner.wfgLoop] at h
    rcases hh : env.health i with _ | s
    · rw [hh] at h
      exact Except.noConfusion h
    · rw [hh] at h
      dsimp only at h
      by_cases h1 : s = "green"
      · rw [if_pos h1] at h
        simp only [Except.ok.injEq, Prod.mk.injEq] at h
        exact h.1.symm
      · rw [if_neg h1] at h
        by_cases h2 : t ≤ i
        · rw [if_pos h2] at h
          simp only [Except.ok.injEq, Prod.mk.injEq] at h
          exact h.1.symm
        · rw [if_neg h2] at h
          exact ih (i + 1) (acc ++ [Effect.httpGet url]) r1 effs h

/-- When every poll up to the deadline delivers a status and none of them is
green, the loop completes without an exception and ends with a logged
error. -/
theorem wfgLoop_timeout (env : Env) (url : String) (t : Nat) (r : ElasticsearchRunner)
    (hsome : ∀ k, k ≤ t → (env.health k).isSome = true)
    (hng : ∀ k, k ≤ t → env.health k ≠ some "green") :
    ∀ (fuel i : Nat) (acc : List Effect), i ≤ t → t + 1 - i < fuel →
      ∃ gets, ElasticsearchRunner.wfgLoop env url t r i fuel acc =
        Except.ok (r, (acc ++ gets) ++
          [Effect.logError "Elasticsearch cluster failed to turn green ..."]) := by
  intro fuel
  induction fuel with
  | zero => intro i acc hi hf; exact absurd hf (by omega)
  | succ f ih =>
    intro i acc hi hf
    simp only [ElasticsearchRunner.wfgLoop]
    rcases hh : env.health i with _ | s
    · have hsi := hsome i hi
      rw [hh] at hsi
      simp at hsi
    · have hs : ¬ s = "green" := by
        intro hgr
        exact hng i hi (by rw [hh, hgr])
      dsimp only
      rw [if_neg hs]
      by_cases hti : t ≤ i
      · rw [if_pos hti]
        exact ⟨[], by simp⟩
      · rw [if_neg hti]
        obtain ⟨gets, hg⟩ := ih (i + 1) (acc ++ [Effect.httpGet url]) (by omega) (by omega)
        refine ⟨[Effect.httpGet url] ++ gets, ?_⟩
        rw [hg]
        simp

/-- Folding decimal accumulation from an arbitrary seed splits into the seed
shifted by the digit count plus the value of the digits. -/
theorem foldl_dec :
    ∀ (l : List Char) (a : Nat),
      l.foldl (fun x c => 10 * x + digitVal c) a = a * 10 ^ l.length + decValue l := by
  intro l
  induction l with
  | nil => intro a; simp [decValue]
  | cons c cs ih =>
    intro a
    have h1 : (c :: cs).foldl (fun x c => 10 * x + digitVal c) a =
        cs.foldl (fun x c => 10 * x + digitVal c) (10 * a + digitVal c) := rfl
    have h2 : decValue (c :: cs) = digitVal c * 10 ^ cs.length + decValue cs := by
      show cs.foldl (fun x c => 10 * x + digitVal c) (10 * 0 + digitVal c) = _
      rw [ih]
      ring_nf
    rw [h1, ih, h2, List.length_cons, pow_succ]
    ring

/-- Peeling the leading digit off a decimal digit list. -/
theorem decValue_cons (c : Char) (ds : List Char) :
    decValue (c :: ds) = digitVal c * 10 ^ ds.length + decValue ds := by
  show ds.foldl (fun x c => 10 * x + digitVal c) (10 * 0 + digitVal c) = _
  rw [foldl_dec]
  ring_nf

/-- The ten decimal digit characters are digits, are not whitespace, decode
to their value, and are distinct from newline and the sign characters. -/
theorem digitChar_facts (m : Nat) (hm : m < 10) :
    (Nat.digitChar m).isDigit = true ∧ pySpace (Nat.digitChar m) = false ∧
      digitVal (Nat.digitChar m) = m ∧ Nat.digitChar m ≠ '\n' ∧
      Nat.digitChar m ≠ '-' ∧ Nat.digitChar m ≠ '+' := by
  interval_cases m <;>
    exact ⟨by decide, by decide, by decide, by decide, by decide, by decide⟩

/-- Every character the core digit printer emits is a decimal digit
character. -/
theorem toDigitsCore_mem (fuel : Nat) :
    ∀ (n : Nat) (ds : List Char), (∀ c ∈ ds, ∃ m, m < 10 ∧ c = Nat.digitChar m) →
      ∀ c ∈ Nat.toDigitsCore 10 fuel n ds, ∃ m, m < 10 ∧ c = Nat.digitChar m := by
  induction fuel with
  | zero =>
    intro n ds h c hc
    simp only [Nat.toDigitsCore] at hc
    exact h c hc
  | succ f ih =>
    intro n ds h c hc
    simp only [Nat.toDigitsCore] at hc
    have hd : ∀ x ∈ (Nat.digitChar (n % 10) :: ds), ∃ m, m < 10 ∧ x = Nat.digitChar m := by
      intro x hx
      rcases List.mem_cons.mp hx with h1 | h2
      · exact ⟨n % 10, Nat.mod_lt _ (by norm_num), h1⟩
      · exact h x h2
    by_cases h0 : n / 10 = 0
    · rw [if_pos h0] at hc
      exact hd c hc
    · rw [if_neg h0] at hc
      exact ih (n / 10) _ hd c hc

/-- The core digit printer prepends exactly the decimal digits of its
argument: decoding its output recovers the argument shifted past the
accumulator. -/
theorem toDigitsCore_dec :
    ∀ (fuel n : Nat), n < fuel → ∀ (ds : List Char),
      decValue (Nat.toDigitsCore 10 fuel n ds) = n * 10 ^ ds.length + decValue ds := by
  intro fuel
  induction fuel with
  | zero => intro n hn; exact absurd hn (by omega)
  | succ f ih =>
    intro n hn ds
    simp only [Nat.toDigitsCore]
    by_cases h0 : n / 10 = 0
    · rw [if_pos h0, decValue_cons, (digitChar_facts (n % 10) (by omega)).2.2.1]
      have hmn : n % 10 = n := by omega
      rw [hmn]
    · rw [if_neg h0, ih (n / 10) (by omega) (Nat.digitChar (n % 10) :: ds),
        decValue_cons, (digitChar_facts (n % 10) (by omega)).2.2.1, List.length_cons,
        pow_succ]
      have hmod : 10 * (n / 10) + n % 10 = n := Nat.div_add_mod n 10
      calc (n / 10) * (10 ^ ds.length * 10) + ((n % 10) * 10 ^ ds.length + decValue ds)
          = (10 * (n / 10) + n % 10) * 10 ^ ds.length + decValue ds := by ring
        _ = n * 10 ^ ds.length + decValue ds := by rw [hmod]

/-- The core digit printer never erases its accumulator. -/
theorem toDigitsCore_ne_nil :
    ∀ (fuel n : Nat) (ds : List Char), ds ≠ [] → Nat.toDigitsCore 10 fuel n ds ≠ [] := by
  intro fuel
  induction fuel with
  | zero =>
    intro n ds h
    simpa only [Nat.toDigitsCore] using h
  | succ f ih =>
    intro n ds h
    simp only [Nat.toDigitsCore]
    by_cases h0 : n / 10 = 0
    · rw [if_pos h0]; simp
    · rw [if_neg h0]; exact ih (n / 10) _ (by simp)

/-- The decimal representation of a natural number is never empty. -/
theorem toDigits_ne_nil (n : Nat) : Nat.toDigits 10 n ≠ [] := by
  unfold Nat.toDigits
  simp only [Nat.toDigitsCore]
  by_cases h0 : n / 10 = 0
  · rw [if_pos h0]; simp
  · rw [if_neg h0]; exact toDigitsCore_ne_nil _ _ _ (by simp)

/-- The decimal representation of a natural number consists of digit
characters. -/
theorem toDigits_mem (n : Nat) :
    ∀ c ∈ Nat.toDigits 10 n, ∃ m, m < 10 ∧ c = Nat.digitChar m :=
  toDigitsCore_mem (n + 1) n [] (by simp)

/-- Decoding the decimal representation of a natural number recovers it. -/
theorem toDigits_dec (n : Nat) : decValue (Nat.toDigits 10 n) = n := by
  have := toDigitsCore_dec (n + 1) n (Nat.lt_succ_self n) []
  simpa [Nat.toDigits, decValue] using this

/-- Dropping by a predicate that fails on every element changes nothing. -/
theorem dropWhile_eq_self_of_all (p : Char → Bool) :
    ∀ l : List Char, (∀ c ∈ l, p c = false) → l.dropWhile p = l
  | [], _ => rfl
  | c :: cs, h => by
    have hc : p c = false := h c (List.mem_cons_self c cs)
    simp [List.dropWhile, hc]

/-- Stripping a list with no whitespace characters changes nothing. -/
theorem strip_of_no_space (l : List Char) (h : ∀ c ∈ l, pySpace c = false) :
    pyStripChars l = l := by
  unfold pyStripChars
  rw [dropWhile_eq_self_of_all pySpace l h,
    dropWhile_eq_self_of_all pySpace l.reverse (fun c hc => h c (List.mem_reverse.mp hc)),
    List.reverse_reverse]

/-- Stripping a nonempty whitespace-free list with a trailing newline keeps
exactly the list. -/
theorem strip_append_newline (c : Char) (cs : List Char)
    (h : ∀ x ∈ (c :: cs), pySpace x = false) :
    pyStripChars ((c :: cs) ++ ['\n']) = c :: cs := by
  unfold pyStripChars
  have hc : pySpace c = false := h c (List.mem_cons_self c cs)
  have h1 : ((c :: cs) ++ ['\n']).dropWhile pySpace = (c :: cs) ++ ['\n'] := by
    simp only [List.cons_append]
    simp [List.dropWhile, hc]
  rw [h1]
  have h2 : ((c :: cs) ++ ['\n']).reverse = '\n' :: (c :: cs).reverse := by
    simp
  rw [h2]
  have h3 : List.dropWhile pySpace ('\n' :: (c :: cs).reverse) =
      List.dropWhile pySpace ((c :: cs).reverse) := by
    simp [List.dropWhile]
    rfl
  rw [h3,
    dropWhile_eq_self_of_all pySpace (c :: cs).reverse
      (fun x hx => h x (List.mem_reverse.mp hx)),
    List.reverse_reverse]

/-- Reading the first line of newline-free content followed by a newline
returns everything including the newline. -/
theorem firstLine_append_newline (l : List Char) (h : ∀ c ∈ l, c ≠ '\n') :
    firstLineChars (l ++ ['\n']) = l ++ ['\n'] := by
  induction l with
  | nil => rfl
  | cons c cs ih =>
    have hc : c ≠ '\n' := h c (List.mem_cons_self c cs)
    simp only [List.cons_append, firstLineChars, if_neg hc]
    exact congrArg (fun t => c :: t) (ih (fun x hx => h x (List.mem_cons_of_mem c hx)))

/-- Parsing the decimal print of a natural number followed by a newline with
the embedded int builtin recovers the number. -/
theorem pyInt_decimal_line (n : Nat) :
    pyIntChars ((toString n).toList ++ ['\n']) = some ((n : Int)) := by
  have htl : (toString n).toList = Nat.toDigits 10 n := rfl
  rw [htl]
  have hmem := toDigits_mem n
  have hnospace : ∀ c ∈ Nat.toDigits 10 n, pySpace c = false := by
    intro c hc
    obtain ⟨m, hm, rfl⟩ := hmem c hc
    exact (digitChar_facts m hm).2.1
  have hdigit : ∀ c ∈ Nat.toDigits 10 n, c.isDigit = true := by
    intro c hc
    obtain ⟨m, hm, rfl⟩ := hmem c hc
    exact (digitChar_facts m hm).1
  have hval : decValue (Nat.toDigits 10 n) = n := toDigits_dec n
  rcases hds : Nat.toDigits 10 n with _ | ⟨c, rest⟩
  · exact absurd hds (toDigits_ne_nil n)
  rw [hds] at hmem hnospace hdigit hval
  obtain ⟨m, hm, hcm⟩ := hmem c (List.mem_cons_self c rest)
  unfold pyIntChars
  rw [strip_append_newline c rest hnospace]
  have hcm1 : ¬ c = '-' := by rw [hcm]; exact (digitChar_facts m hm).2.2.2.2.1
  have hcm2 : ¬ c = '+' := by rw [hcm]; exact (digitChar_facts m hm).2.2.2.2.2
  have hall : (c :: rest).all Char.isDigit = true := by
    rw [List.all_eq_true]
    exact hdigit
  simp [hcm1, hcm2, hall, hval]

/-- C1: the claim states that the pid-file path re-derived by the best-effort
lookup of is_running via pid_from_file is identical to the path run computed
for the current ClusterIdentity and passed to the server.  Even with the
cluster name identical at both call sites (install path /opt/es, version
6.4.3, generated name ba), run derives install-path slash version-name slash
pid marker while the lookup uses the bare cluster name as the cluster path,
so the two paths differ and the lookup misses the pid a prior run wrote. -/
theorem C1_pid_path_mismatch :
    ElasticsearchRunner.run_pid_path envNoPid runnerFresh = "/opt/es/6.4.3-ba/.pid" ∧
    ElasticsearchRunner.get_pid_file (generate_cluster_name envNoPid) = "ba/.pid" ∧
    ElasticsearchRunner.run_pid_path envNoPid runnerFresh ≠
      ElasticsearchRunner.get_pid_file (generate_cluster_name envNoPid) ∧
    fetch_pid_from_pid_file envWarm.readFile
      (ElasticsearchRunner.run_pid_path envWarm runnerFresh) = some 123 ∧
    ElasticsearchRunner.pid_from_file envWarm = none := by
  refine ⟨rfl, rfl, by decide, rfl, rfl⟩

/-- C2: calling run twice without an intervening stop performs exactly one
subprocess launch; the second call, finding is_running true, returns the same
instance with only a warning, leaving ServerState unchanged.  The hypotheses
state that the controller does not start out running, that no warm pid file
pre-exists, and that the version string is well formed; the second call is
conditional on the first launch having produced a live pid, which is a fact
about the external server process. -/
theorem C2_run_twice_one_launch (env : Env) (r : ElasticsearchRunner)
    (h0 : ElasticsearchRunner.is_running env r = false)
    (hcold : pyTruthy (fetch_pid_from_pid_file env.readFile
      (ElasticsearchRunner.run_pid_path env r)) = false)
    (hv : versionOk r.version = true) :
    ∃ r1 effs1,
      ElasticsearchRunner.run env r = Except.ok (r1, effs1) ∧
      launchCount effs1 = 1 ∧
      (ElasticsearchRunner.is_running env r1 = true →
        ElasticsearchRunner.run env r1 =
          Except.ok (r1, [Effect.warn "Elasticsearch already running ..."])) := by
  obtain ⟨major, hcoldEq⟩ := runFresh_cold env r hcold hv
  have hrun : ElasticsearchRunner.run env r =
      Except.ok (ElasticsearchRunner.run_result_state env r
          (fetch_pid_from_pid_file env.readFileAfterSettle
            (ElasticsearchRunner.run_pid_path env r)),
        ElasticsearchRunner.run_setup_effects env r ++
          [Effect.truncateFile (ElasticsearchRunner.run_log_fn env r),
           Effect.launch (ElasticsearchRunner.run_call env r major),
           Effect.settleSleep]) := by
    rw [run_of_not_running env r h0]
    exact hcoldEq
  exact ⟨_, _, hrun, launchCount_cold_effects env r _ _,
    fun h1 => run_of_running env _ h1⟩

/-- C2 witness: in the scenario where the launched server writes pid 123
within the settling window and stays alive, the hypotheses hold and the
theorem applies. -/
theorem C2_run_twice_one_launch_witness :
    ElasticsearchRunner.is_running envLaunchOk runnerFresh = false ∧
    pyTruthy (fetch_pid_from_pid_file envLaunchOk.readFile
      (ElasticsearchRunner.run_pid_path envLaunchOk runnerFresh)) = false ∧
    versionOk runnerFresh.version = true ∧
    (∃ r1 effs1,
      ElasticsearchRunner.run envLaunchOk runnerFresh = Except.ok (r1, effs1) ∧
      launchCount effs1 = 1 ∧
      (ElasticsearchRunner.is_running envLaunchOk r1 = true →
        ElasticsearchRunner.run envLaunchOk r1 =
          Except.ok (r1, [Effect.warn "Elasticsearch already running ..."]))) :=
  ⟨by decide, by decide, by decide,
    C2_run_twice_one_launch envLaunchOk runnerFresh (by decide) (by decide) (by decide)⟩

/-- C3 counterexample: a run whose server never writes the pid file within
the settling window still sets es_state to a tuple, so the controller is left
with a non-empty ServerState lacking a pid, contradicting the claimed
invariant that es_state is non-empty only when discovery obtained a server
pid. -/
theorem C3_counterexample_failed_run :
    ∃ r1 effs st,
      ElasticsearchRunner.run envNoPid runnerFresh = Except.ok (r1, effs) ∧
      r1.es_state = some st ∧ st.server_pid = none :=
  ⟨_, _, _, rfl, rfl, rfl⟩

/-- C3 amended: es_state is non-empty exactly when a run has proceeded past
the already-running check and returned since the last stop, regardless of
discovery success; a failed discovery shows up as a non-empty state whose
server pid is absent, and every successful stop clears both es_state and
es_config. -/
theorem C3_state_invariant_amended (env : Env) (r s : ElasticsearchRunner) (dt : Bool)
    (h0 : ElasticsearchRunner.is_running env r = false)
    (hv : versionOk r.version = true) :
    (∃ r1 e1, ElasticsearchRunner.run env r = Except.ok (r1, e1) ∧
      r1.es_state.isSome = true) ∧
    (∀ r2 e2, ElasticsearchRunner.stop env dt s = Except.ok (r2, e2) →
      r2.es_state = none ∧ r2.es_config = none) := by
  constructor
  · rw [run_of_not_running env r h0]
    rcases hw : pyTruthy (fetch_pid_from_pid_file env.readFile
        (ElasticsearchRunner.run_pid_path env r)) with _ | _
    · obtain ⟨major, hcoldEq⟩ := runFresh_cold env r hw hv
      exact ⟨_, _, hcoldEq, rfl⟩
    · exact ⟨_, _, runFresh_warm env r hw, rfl⟩
  · intro r2 e2 h
    exact stop_clears env dt s r2 e2 h

/-- C3 amended witness: the fresh controller in the empty scenario satisfies
the hypotheses and the theorem applies. -/
theorem C3_state_invariant_amended_witness :
    ElasticsearchRunner.is_running envNoPid runnerFresh = false ∧
    versionOk runnerFresh.version = true ∧
    ((∃ r1 e1, ElasticsearchRunner.run envNoPid runnerFresh = Except.ok (r1, e1) ∧
        r1.es_state.isSome = true) ∧
     (∀ r2 e2, ElasticsearchRunner.stop envNoPid true runnerFresh = Except.ok (r2, e2) →
        r2.es_state = none ∧ r2.es_config = none)) :=
  ⟨by decide, by decide,
    C3_state_invariant_amended envNoPid runnerFresh runnerFresh true (by decide) (by decide)⟩

/-- C4: stop with delete_transient true, invoked while the server is running,
removes exactly the log directory, the data directory and the rendered
configuration file from disk, in that order, and writes nothing; stop with
delete_transient false removes nothing and writes nothing, leaving all three
intact. -/
theorem C4_stop_transient (env : Env) (r : ElasticsearchRunner) (st : ElasticsearchState)
    (cfg : ConfigDoc) (pc : PathCfg) (dp lp : String)
    (hrun : ElasticsearchRunner.is_running env r = true)
    (hst : r.es_state = some st)
    (hcfg : r.es_config = some cfg)
    (hpath : cfg.path = some pc)
    (hd : pc.data = some dp)
    (hl : pc.log = some lp)
    (hex : env.fileExists st.config_fn = true) :
    (∃ r2 e2, ElasticsearchRunner.stop env true r = Except.ok (r2, e2) ∧
      diskRemovals e2 = [lp, dp, st.config_fn] ∧ diskWrites e2 = []) ∧
    (∃ r3 e3, ElasticsearchRunner.stop env false r = Except.ok (r3, e3) ∧
      diskRemovals e3 = [] ∧ diskWrites e3 = []) := by
  rcases hp : ElasticsearchRunner.es_pid env r with _ | pid
  · rw [ElasticsearchRunner.is_running, hp] at hrun
    simp at hrun
  constructor
  · have hstop : ElasticsearchRunner.stop env true r = Except.ok
        ({ r with es_state := none, es_config := none },
         ([Effect.terminate pid, Effect.waitProcess pid] ++
           (if env.processAliveAfterStop pid = true then
             [Effect.warn "Failed to stop Elasticsearch server process ..."] else []) ++
           ([Effect.rmtree lp] ++ [Effect.rmtree dp])) ++ [Effect.removeFile st.config_fn]) := by
      simp [ElasticsearchRunner.stop, hrun, hp, hcfg, hpath, hd, hl, hst, hex]
    refine ⟨_, _, hstop, ?_, ?_⟩
    · by_cases hw : env.processAliveAfterStop pid = true <;>
        simp [diskRemovals, hw]
    · by_cases hw : env.processAliveAfterStop pid = true <;>
        simp [diskWrites, hw]
  · have hstop : ElasticsearchRunner.stop env false r = Except.ok
        ({ r with es_state := none, es_config := none },
         [Effect.terminate pid, Effect.waitProcess pid] ++
           (if env.processAliveAfterStop pid = true then
             [Effect.warn "Failed to stop Elasticsearch server process ..."] else [])) := by
      simp [ElasticsearchRunner.stop, hrun, hp]
    refine ⟨_, _, hstop, ?_, ?_⟩
    · by_cases hw : env.processAliveAfterStop pid = true <;>
        simp [diskRemovals, hw]
    · by_cases hw : env.processAliveAfterStop pid = true <;>
        simp [diskWrites, hw]

/-- C4 witness: the running controller with pid 123 and the rendered config
of cluster ba satisfies every hypothesis and the theorem applies. -/
theorem C4_stop_transient_witness :
    ElasticsearchRunner.is_running envAlive runnerRunning = true ∧
    runnerRunning.es_state = some stRunning ∧
    runnerRunning.es_config =
      some (generate_config "ba" "/opt/es/6.4.3-ba/data" "/opt/es/6.4.3-ba/log") ∧
    envAlive.fileExists stRunning.config_fn = true ∧
    ((∃ r2 e2, ElasticsearchRunner.stop envAlive true runnerRunning = Except.ok (r2, e2) ∧
        diskRemovals e2 =
          ["/opt/es/6.4.3-ba/log", "/opt/es/6.4.3-ba/data", stRunning.config_fn] ∧
        diskWrites e2 = []) ∧
     (∃ r3 e3, ElasticsearchRunner.stop envAlive false runnerRunning = Except.ok (r3, e3) ∧
        diskRemovals e3 = [] ∧ diskWrites e3 = [])) :=
  ⟨by decide, rfl, rfl, by decide,
   C4_stop_transient envAlive runnerRunning stRunning _ _
     "/opt/es/6.4.3-ba/data" "/opt/es/6.4.3-ba/log"
     (by decide) rfl rfl rfl rfl rfl (by decide)⟩

/-- C5 counterexample: on the exact synthetic stream of the claim the second
line holds publish_address and the port 9301 but no http marker, so the port
pattern of the scanner does not match and the result is the pid with the
default port 9200, not the claimed pair with port 9301. -/
theorem C5_counterexample_missing_http :
    parse_es_log_header c5lines 200 = (some 4321, 9200) ∧
    parse_es_log_header c5lines 200 ≠ (some 4321, 9301) := by
  constructor
  · rfl
  · decide

/-- C5 amended: the publish_address line must also contain the marker http
before it, case-insensitively; with that marker present the scanner returns
the pid 4321 and the port 9301, stopping at the started line. -/
theorem C5_scanner_amended :
    parse_es_log_header c5linesHttp 200 = (some 4321, 9301) := by
  rfl

/-- C6: when the line ceiling is reached before any started marker the
scanner returns whatever was captured so far without blocking; on a stream of
only blank lines with ceiling 3 nothing is captured, so it returns the absent
pid and the default port 9200. -/
theorem C6_scanner_ceiling (lines : List String) (hb : ∀ l ∈ lines, l = "") :
    parse_es_log_header lines 3 = (none, 9200) :=
  parseStep_all_blank lines hb 3 0 none 9200

/-- C6 witness: five blank lines with ceiling 3. -/
theorem C6_scanner_ceiling_witness :
    (∀ l ∈ List.replicate 5 "", l = "") ∧
      parse_es_log_header (List.replicate 5 "") 3 = (none, 9200) :=
  ⟨by decide, C6_scanner_ceiling (List.replicate 5 "") (by decide)⟩

/-- C7 counterexample: when the pid file computed for the new ClusterIdentity
already holds a live-looking pid, run takes the warm-recovery branch and
never creates or truncates the per-run log file, contradicting the claim that
the log file is created fresh on every run past the already-running check
including warm recovery. -/
theorem C7_counterexample_warm_recovery :
    ∃ r1 effs,
      ElasticsearchRunner.run envWarm runnerFresh = Except.ok (r1, effs) ∧
      truncatedPaths effs = [] := by
  refine ⟨_, _, rfl, rfl⟩

/-- C7 amended: a run past the already-running check creates the log file
fresh exactly when the warm-start check finds no truthy pid in the pid file;
in the warm-recovery case the log file is not touched. -/
theorem C7_truncation_amended (env : Env) (r : ElasticsearchRunner)
    (h0 : ElasticsearchRunner.is_running env r = false)
    (hv : versionOk r.version = true) :
    ∃ r1 effs,
      ElasticsearchRunner.run env r = Except.ok (r1, effs) ∧
      truncatedPaths effs =
        (if pyTruthy (fetch_pid_from_pid_file env.readFile
            (ElasticsearchRunner.run_pid_path env r)) = true then ([] : List String)
         else [ElasticsearchRunner.run_log_fn env r]) := by
  rw [run_of_not_running env r h0]
  rcases hw : pyTruthy (fetch_pid_from_pid_file env.readFile
      (ElasticsearchRunner.run_pid_path env r)) with _ | _
  · obtain ⟨major, hcoldEq⟩ := runFresh_cold env r hw hv
    refine ⟨_, _, hcoldEq, ?_⟩
    simp [truncatedPaths, ElasticsearchRunner.run_setup_effects, hw]
  · refine ⟨_, _, runFresh_warm env r hw, ?_⟩
    simp [truncatedPaths, ElasticsearchRunner.run_setup_effects, hw]

/-- C7 amended witness: the cold-start scenario, where the log file is
truncated. -/
theorem C7_truncation_amended_witness :
    ElasticsearchRunner.is_running envNoPid runnerFresh = false ∧
    versionOk runnerFresh.version = true ∧
    (∃ r1 effs,
      ElasticsearchRunner.run envNoPid runnerFresh = Except.ok (r1, effs) ∧
      truncatedPaths effs =
        (if pyTruthy (fetch_pid_from_pid_file envNoPid.readFile
            (ElasticsearchRunner.run_pid_path envNoPid runnerFresh)) = true
         then ([] : List String)
         else [ElasticsearchRunner.run_log_fn envNoPid runnerFresh])) :=
  ⟨by decide, by decide,
    C7_truncation_amended envNoPid runnerFresh (by decide) (by decide)⟩

/-- C8: stop on a controller whose server is not running, including one that
never ran, does not raise: it emits only a warning, clears es_state and
es_config to empty and returns the instance. -/
theorem C8_stop_not_running (env : Env) (dt : Bool) (r : ElasticsearchRunner)
    (h : ElasticsearchRunner.is_running env r = false) :
    ElasticsearchRunner.stop env dt r =
      Except.ok ({ r with es_state := none, es_config := none },
        [Effect.warn "Elasticsearch is not running ..."]) := by
  simp [ElasticsearchRunner.stop, h]

/-- C8 witness: a freshly constructed controller that never ran. -/
theorem C8_stop_not_running_witness :
    ElasticsearchRunner.is_running envNoPid runnerFresh = false ∧
    ElasticsearchRunner.stop envNoPid true runnerFresh =
      Except.ok ({ runnerFresh with es_state := none, es_config := none },
        [Effect.warn "Elasticsearch is not running ..."]) :=
  ⟨by decide, C8_stop_not_running envNoPid true runnerFresh (by decide)⟩

/-- C9 counterexample: the claim states that wait_for_green never raises,
but the source calls requests.get and json.loads with no exception handling;
on a running controller whose health endpoint is unreachable the very first
poll raises a connection error that propagates out of wait_for_green. -/
theorem C9_counterexample_unreachable :
    ElasticsearchRunner.wait_for_green envDown 1 runnerRunning =
      Except.error "requests.exceptions.ConnectionError" := by
  rfl

/-- C9 amended: wait_for_green warns and returns the instance immediately,
without polling or raising, when ServerState is absent or holds no port;
every call that completes without an exception returns the instance
unchanged; and when every poll up to the deadline delivers a decodable
status and none of them is green, it completes without raising, ending with
a logged error.  A poll whose request or decode fails raises out of the
function instead. -/
theorem C9_wait_for_green_corrected (env : Env) (t : Nat) (r : ElasticsearchRunner) :
    (r.es_state = none →
      ElasticsearchRunner.wait_for_green env t r =
        Except.ok (r, [Effect.warn "Elasticsearch runner is not started ..."])) ∧
    (∀ st, r.es_state = some st → st.port = none →
      ElasticsearchRunner.wait_for_green env t r =
        Except.ok (r, [Effect.warn "Elasticsearch runner not properly started ..."])) ∧
    (∀ r1 effs, ElasticsearchRunner.wait_for_green env t r = Except.ok (r1, effs) →
      r1 = r) ∧
    ((∀ k, k ≤ t → (env.health k).isSome = true) →
     (∀ k, k ≤ t → env.health k ≠ some "green") →
      ∀ st p, r.es_state = some st → st.port = some p →
        ∃ effs, ElasticsearchRunner.wait_for_green env t r = Except.ok (r, effs) ∧
          effs.getLast? =
            some (Effect.logError "Elasticsearch cluster failed to turn green ...")) := by
  refine ⟨?_, ?_, ?_, ?_⟩
  · intro hs
    simp [ElasticsearchRunner.wait_for_green, hs]
  · intro st hs hpp
    simp [ElasticsearchRunner.wait_for_green, hs, hpp]
  · intro r1 effs h
    rcases hs : r.es_state with _ | st
    · simp only [ElasticsearchRunner.wait_for_green, hs, Except.ok.injEq,
        Prod.mk.injEq] at h
      exact h.1.symm
    · rcases hpp : st.port with _ | p
      · simp only [ElasticsearchRunner.wait_for_green, hs, hpp, Except.ok.injEq,
          Prod.mk.injEq] at h
        exact h.1.symm
      · simp only [ElasticsearchRunner.wait_for_green, hs, hpp] at h
        exact wfgLoop_ok_fst env _ t r _ 0 _ r1 effs h
  · intro hsome hng st p hs hpp
    simp only [ElasticsearchRunner.wait_for_green, hs, hpp]
    obtain ⟨gets, hg⟩ := wfgLoop_timeout env
      ("http://localhost:" ++ toString p ++ "/_cluster/health") t r hsome hng (t + 2) 0
      [Effect.httpGet ("http://localhost:" ++ toString p ++ "/_cluster/health")]
      (by omega) (by omega)
    refine ⟨_, hg, ?_⟩
    exact List.getLast?_concat _

/-- C9 amended witness: a running controller polled against a reachable
cluster that stays red for a one-tick timeout completes without an exception
and ends with a logged error. -/
theorem C9_wait_for_green_corrected_witness :
    (∀ k, k ≤ 1 → (envNoPid.health k).isSome = true) ∧
    (∀ k, k ≤ 1 → envNoPid.health k ≠ some "green") ∧
    (∃ effs,
      ElasticsearchRunner.wait_for_green envNoPid 1 runnerRunning =
        Except.ok (runnerRunning, effs) ∧
      effs.getLast? =
        some (Effect.logError "Elasticsearch cluster failed to turn green ...")) :=
  ⟨fun k hk => rfl,
   fun k hk => (by decide : (some "red" : Option String) ≠ some "green"),
   (C9_wait_for_green_corrected envNoPid 1 runnerRunning).2.2.2
     (fun k hk => rfl)
     (fun k hk => (by decide : (some "red" : Option String) ≠ some "green"))
     stRunning 9200 rfl rfl⟩

/-- C10: fetch_pid_from_pid_file is total and never raises: it returns none
when the file is missing or unreadable, returns the parsed integer when the
first line of the file is the decimal print of a number followed by a
newline, and returns none when the first line is not an integer literal. -/
theorem C10_fetch_pid_total (env : Env) (p : String) :
    (env.readFile p = none → fetch_pid_from_pid_file env.readFile p = none) ∧
    (∀ n : Nat, env.readFile p = some (toString n ++ "\n") →
      fetch_pid_from_pid_file env.readFile p = some ((n : Int))) ∧
    (env.readFile p = some "pid file garbage" →
      fetch_pid_from_pid_file env.readFile p = none) := by
  refine ⟨?_, ?_, ?_⟩
  · intro h
    unfold fetch_pid_from_pid_file
    rw [h]
  · intro n h
    unfold fetch_pid_from_pid_file
    rw [h]
    show pyIntChars (firstLineChars ((toString n ++ "\n")).toList) = some ((n : Int))
    have hlist : (toString n ++ "\n").toList = (toString n).toList ++ ['\n'] := rfl
    rw [hlist]
    have hnl : ∀ c ∈ (toString n).toList, c ≠ '\n' := by
      intro c hc
      obtain ⟨m, hm, rfl⟩ := toDigits_mem n c hc
      exact (digitChar_facts m hm).2.2.2.1
    rw [firstLine_append_newline _ hnl]
    exact pyInt_decimal_line n
  · intro h
    unfold fetch_pid_from_pid_file
    rw [h]
    rfl

/-- C10 witness: a pid file holding the decimal print of 4321 parses back to
4321. -/
theorem C10_fetch_pid_total_witness :
    envPidFile.readFile "/var/run/es.pid" = some (toString 4321 ++ "\n") ∧
    fetch_pid_from_pid_file envPidFile.readFile "/var/run/es.pid" = some ((4321 : Int)) :=
  ⟨by decide, (C10_fetch_pid_total envPidFile "/var/run/es.pid").2.1 4321 (by decide)⟩
